import Mathlib

/-!
Shallow embedding of src/WattTime/WattTime.py.

Modelling conventions:
- Time (datetime.now) is a natural number of minutes; timedelta(minutes := 29)
  is the constant 29.  The two datetime.now readings inside a single method call
  (the expiry check and the expiry computation of a triggered login) are taken
  at the same instant, passed as the parameter now.
- HTTP is modelled by passing explicit Response values for each request a method
  may issue; outgoing requests, prints and file operations are recorded in a
  List Effect trace, in program order.
- requests r.ok is status < 400, as in the requests library.
- Python exceptions are the error side of Except PyExn; reading an attribute
  that was never assigned is attributeError.  ValidationError,
  AuthenticationError and ApiError are the error taxonomy of the specification;
  the source never defines or raises them, and they appear here only so that
  claims mentioning them can be stated.
- Decoded JSON bodies are JsonVal; the repr of a container in an f-string is
  abbreviated (the claims never depend on it).
- latitude / longitude floats are carried opaquely (the source never computes
  with them); they are modelled as Int.
-/

namespace WattTime

/-- Decoded JSON value, as produced by r.json(). -/
inductive JsonVal where
  | null : JsonVal
  | bool (b : Bool) : JsonVal
  | num (n : Int) : JsonVal
  | str (s : String) : JsonVal
  | arr (xs : List JsonVal) : JsonVal
  | obj (fields : List (String × JsonVal)) : JsonVal

/-- Python str() of a JSON value, used by f-strings; containers abbreviated. -/
def pyStr : JsonVal → String
  | .null => "None"
  | .bool b => if b then "True" else "False"
  | .num n => toString n
  | .str s => s
  | .arr _ => "<list>"
  | .obj _ => "<dict>"

/-- Python exceptions raised by the embedded code, plus the error taxonomy of
the specification (validationError, authenticationError, apiError), which the
source never raises. -/
inductive PyExn where
  | attributeError (name : String)
  | keyError (key : String)
  | typeError (msg : String)
  | indexError
  | validationError (msg : String)
  | authenticationError (msg : String)
  | apiError (endpoint : String) (status : Nat) (detail : String)
deriving DecidableEq, Repr

/-- Subscripting r.json()[k]: KeyError when the key is missing, TypeError when
the value is not a dict. -/
def JsonVal.getKey : JsonVal → String → Except PyExn JsonVal
  | .obj fields, k =>
    match fields.lookup k with
    | some v => .ok v
    | none => .error (.keyError k)
  | _, k => .error (.typeError ("value not subscriptable at key " ++ k))

/-- Membership test k in r.json().keys(); AttributeError when the value is not
a dict (no .keys method). -/
def JsonVal.keysContain : JsonVal → String → Except PyExn Bool
  | .obj fields, k => .ok ((fields.lookup k).isSome)
  | _, _ => .error (.attributeError "keys")

/-- An HTTP response: status code, decoded JSON body, raw text body.  For the
archive endpoint the binary r.content is identified with the text field. -/
structure Response where
  status : Nat
  json : JsonVal
  text : String

/-- requests r.ok: True iff status_code < 400. -/
def Response.ok (r : Response) : Bool := r.status < 400

/-- Value of a query or body parameter. -/
inductive PVal where
  | s (v : String)
  | num (v : Int)
  | b (v : Bool)
  | null
deriving DecidableEq, Repr

/-- Observable effects, recorded in program order: outgoing HTTP requests,
console prints, and file-system operations. -/
inductive Effect where
  | login (user pass : String)
  | get (path : String) (params : List (String × PVal)) (auth : String)
  | post (path : String) (body : List (String × PVal))
  | writeFile (path content : String)
  | extractZip (src dest : String)
  | writeCsv (path : String)
  | print (msg : String)
deriving DecidableEq, Repr

/-- True for effects that are network requests (login, get, post). -/
def Effect.isNetwork : Effect → Bool
  | .login _ _ => true
  | .get _ _ _ => true
  | .post _ _ => true
  | _ => false

/-- True for outgoing endpoint GET requests. -/
def Effect.isGet : Effect → Bool
  | .get _ _ _ => true
  | _ => false

/-- Object state of class GridEmissionsInformation.  The three token attributes
are Option because __init__ may finish without ever assigning them (the failed
login path of _get_api_token); reading an unassigned one raises
AttributeError. -/
structure GridEmissionsInformation where
  username : String
  password : String
  host : String
  api_token : Option JsonVal
  auth_header : Option String
  api_token_expire_dt : Option Nat

/-- State right after the attribute assignments of __init__, before the
_get_api_token call it ends with. -/
def initSession (username password : String) : GridEmissionsInformation :=
  { username := username
    password := password
    host := "https://api2.watttime.org/v2"
    api_token := none
    auth_header := none
    api_token_expire_dt := none }

/-- Method _get_api_token: one GET /login with basic auth.  On r.ok, assign
api_token, auth_header and api_token_expire_dt := now + 29 minutes; otherwise
print Login Failed and assign nothing. -/
def get_api_token (s : GridEmissionsInformation) (now : Nat) (resp : Response) :
    Except PyExn GridEmissionsInformation × List Effect :=
  let effs : List Effect := [.login s.username s.password]
  if resp.ok then
    match resp.json.getKey "token" with
    | .ok tok =>
        (.ok { s with
                api_token := some tok
                auth_header := some ("Bearer " ++ pyStr tok)
                api_token_expire_dt := some (now + 29) }, effs)
    | .error e => (.error e, effs)
  else
    (.ok s, effs ++ [.print "Login Failed"])

/-- Constructor __init__ of GridEmissionsInformation: store the credentials and
host, then call _get_api_token. -/
def construct (username password : String) (now : Nat) (loginResp : Response) :
    Except PyExn GridEmissionsInformation × List Effect :=
  get_api_token (initSession username password) now loginResp

/-- The expiry check at the top of every endpoint method, exactly as written in
the source: if self api_token_expire_dt > datetime.now() then _get_api_token().
Reading the attribute raises AttributeError when it was never assigned. -/
def tokenCheck (s : GridEmissionsInformation) (now : Nat) (loginResp : Response) :
    Except PyExn GridEmissionsInformation × List Effect :=
  match s.api_token_expire_dt with
  | none => (.error (.attributeError "_api_token_expire_dt"), [])
  | some exp =>
    if now < exp then get_api_token s now loginResp
    else (.ok s, [])

/-- Return value of an endpoint method: decoded JSON on r.ok, the raw text on
failure, or None. -/
inductive RetVal where
  | json (v : JsonVal)
  | text (t : String)
  | pynone

/-- The shared tail of the JSON endpoint methods: one authenticated GET; on
r.ok return r.json(), else print the status code and return r.text.  Reading
auth_header raises AttributeError when it was never assigned. -/
def jsonGet (s1 : GridEmissionsInformation) (path : String)
    (params : List (String × PVal)) (resp : Response) :
    Except PyExn (RetVal × GridEmissionsInformation) × List Effect :=
  match s1.auth_header with
  | none => (.error (.attributeError "_auth_header"), [])
  | some hdr =>
    if resp.ok then
      (.ok (.json resp.json, s1), [.get path params hdr])
    else
      (.ok (.text resp.text, s1),
        [.get path params hdr,
         .print ("Request failed with status code " ++ toString resp.status)])

/-- Method determine_grid_region. -/
def determine_grid_region (s : GridEmissionsInformation) (now : Nat)
    (loginResp resp : Response) (latitude longitude : Int) :
    Except PyExn (RetVal × GridEmissionsInformation) × List Effect :=
  match tokenCheck s now loginResp with
  | (.error e, effs) => (.error e, effs)
  | (.ok s1, effs) =>
    let params := [("latitude", PVal.num latitude), ("longitude", PVal.num longitude)]
    let r := jsonGet s1 "/ba-from-loc" params resp
    (r.1, effs ++ r.2)

/-- Method list_grid_regions. -/
def list_grid_regions (s : GridEmissionsInformation) (now : Nat)
    (loginResp resp : Response) (all_regions : Bool) :
    Except PyExn (RetVal × GridEmissionsInformation) × List Effect :=
  match tokenCheck s now loginResp with
  | (.error e, effs) => (.error e, effs)
  | (.ok s1, effs) =>
    let params := [("all", PVal.b all_regions)]
    let r := jsonGet s1 "/ba-access" params resp
    (r.1, effs ++ r.2)

/-- Python truthiness of an optional string argument: None and the empty
string are falsy. -/
def truthyStr : Option String → Bool
  | none => false
  | some v => !(v == "")

/-- Parameters contributed by an optional string argument k. -/
def optStrParam (k : String) : Option String → List (String × PVal)
  | none => []
  | some v => if v == "" then [] else [(k, PVal.s v)]

/-- Parameters contributed by the lati_long tuple argument (a tuple is truthy
iff nonempty; a pair always is). -/
def latLongParams : Option (Int × Int) → List (String × PVal)
  | none => []
  | some (la, lo) => [("latitude", PVal.num la), ("longitude", PVal.num lo)]

/-- Method real_time_emissions_index.  The source performs no exclusivity
check: every truthy argument just contributes its parameters. -/
def real_time_emissions_index (s : GridEmissionsInformation) (now : Nat)
    (loginResp resp : Response) (bal_auth_abbr : Option String)
    (lati_long : Option (Int × Int)) (style : Option String) :
    Except PyExn (RetVal × GridEmissionsInformation) × List Effect :=
  match tokenCheck s now loginResp with
  | (.error e, effs) => (.error e, effs)
  | (.ok s1, effs) =>
    let params := optStrParam "ba" bal_auth_abbr ++ latLongParams lati_long
      ++ optStrParam "style" style
    let r := jsonGet s1 "/index" params resp
    (r.1, effs ++ r.2)

/-- Parameters contributed by the start_and_end_time tuple of
grid_emissions_data, modelled as a list of timestamps: an empty tuple is falsy
and skipped; a truthy tuple is subscripted at 0 and 1, raising IndexError when
index 1 is out of range. -/
def startEndParams : Option (List String) → Except PyExn (List (String × PVal))
  | none => .ok []
  | some ts =>
    if ts.isEmpty then .ok []
    else
      match ts.get? 0, ts.get? 1 with
      | some st, some et => .ok [("starttime", PVal.s st), ("endtime", PVal.s et)]
      | _, _ => .error .indexError

/-- Method grid_emissions_data.  Parameter dict built in source order: ba,
latitude/longitude, starttime/endtime, style, moerversion. -/
def grid_emissions_data (s : GridEmissionsInformation) (now : Nat)
    (loginResp resp : Response) (bal_auth_abbr : Option String)
    (lati_long : Option (Int × Int)) (style : Option String)
    (start_and_end_time : Option (List String)) (moerversion : Option String) :
    Except PyExn (RetVal × GridEmissionsInformation) × List Effect :=
  match tokenCheck s now loginResp with
  | (.error e, effs) => (.error e, effs)
  | (.ok s1, effs) =>
    match startEndParams start_and_end_time with
    | .error e => (.error e, effs)
    | .ok pse =>
      let params := optStrParam "ba" bal_auth_abbr ++ latLongParams lati_long
        ++ pse ++ optStrParam "style" style ++ optStrParam "moerversion" moerversion
      let r := jsonGet s1 "/data" params resp
      (r.1, effs ++ r.2)

/-- Outcomes of the file-system operations attempted inside the try block of
historical_emissions: whether saving the zip (makedirs + open + write), the
extraction, and the CSV concatenation each complete without raising. -/
structure IOOutcome where
  saveOk : Bool
  extractOk : Bool
  concatOk : Bool

/-- Python filename.split with a dot, index 0: the part before the first
dot (split always yields a nonempty list). -/
def cleanFilename (filename : String) : String :=
  (filename.splitOn ".").headD filename

/-- Method historical_emissions: GET /historical, save r.content to
output/<filename>.zip with no status check, optionally extract and
concatenate; every exception inside the try block is caught and only the
message Unable to save file. is printed; always returns None. -/
def historical_emissions (s : GridEmissionsInformation) (now : Nat)
    (loginResp resp : Response) (bal_auth_abbr filename : String)
    (extract_files concatenate : Bool) (moerversion : String) (io : IOOutcome) :
    Except PyExn (RetVal × GridEmissionsInformation) × List Effect :=
  match tokenCheck s now loginResp with
  | (.error e, effs) => (.error e, effs)
  | (.ok s1, effs) =>
    match s1.auth_header with
    | none => (.error (.attributeError "_auth_header"), effs)
    | some hdr =>
      let params := [("ba", PVal.s bal_auth_abbr)]
        ++ (if moerversion == "" then [] else [("version", PVal.s moerversion)])
      let effs1 := effs ++ [Effect.get "/historical" params hdr]
      let file_path := "output/" ++ cleanFilename filename
      if !io.saveOk then
        (.ok (.pynone, s1), effs1 ++ [.print "Unable to save file."])
      else
        let effs2 := effs1 ++ [Effect.writeFile (file_path ++ ".zip") resp.text]
        if extract_files then
          if !io.extractOk then
            (.ok (.pynone, s1), effs2 ++ [.print "Unable to save file."])
          else
            let effs3 := effs2 ++ [Effect.extractZip (file_path ++ ".zip") file_path]
            if concatenate then
              if !io.concatOk then
                (.ok (.pynone, s1), effs3 ++ [.print "Unable to save file."])
              else
                (.ok (.pynone, s1), effs3 ++ [.writeCsv (file_path ++ " (Combined Data).csv")])
            else (.ok (.pynone, s1), effs3)
        else (.ok (.pynone, s1), effs2)

/-- Method emissions_forcast.  extended_forecast contributes a parameter only
when truthy (None and False are falsy). -/
def emissions_forcast (s : GridEmissionsInformation) (now : Nat)
    (loginResp resp : Response) (bal_auth_abbr : String)
    (starttime endtime : Option String) (extended_forecast : Option Bool) :
    Except PyExn (RetVal × GridEmissionsInformation) × List Effect :=
  match tokenCheck s now loginResp with
  | (.error e, effs) => (.error e, effs)
  | (.ok s1, effs) =>
    let params := [("ba", PVal.s bal_auth_abbr)]
      ++ optStrParam "starttime" starttime ++ optStrParam "endtime" endtime
      ++ (match extended_forecast with
          | some true => [("extended_forecast", PVal.b true)]
          | _ => [])
    let r := jsonGet s1 "/forecast" params resp
    (r.1, effs ++ r.2)

/-- Method get_region_map_geometry: authenticated GET /maps with no query
parameters. -/
def get_region_map_geometry (s : GridEmissionsInformation) (now : Nat)
    (loginResp resp : Response) :
    Except PyExn (RetVal × GridEmissionsInformation) × List Effect :=
  match tokenCheck s now loginResp with
  | (.error e, effs) => (.error e, effs)
  | (.ok s1, effs) =>
    let r := jsonGet s1 "/maps" [] resp
    (r.1, effs ++ r.2)

/-- Object state of class RegisterNewUser after register() has stored the
decoded server response. -/
structure RegisterNewUser where
  username : String
  password : String
  email : String
  org : Option String
  registration_response : JsonVal

/-- JSON body sent by register(). -/
def registerBody (username password email : String) (org : Option String) :
    List (String × PVal) :=
  [("username", PVal.s username), ("password", PVal.s password),
   ("email", PVal.s email),
   ("org", match org with | some o => PVal.s o | none => PVal.null)]

/-- Method register of RegisterNewUser: one POST; on r.ok with an ok key print
Account Created, otherwise print the error field when present or the whole
body; in every non-raising path store registration_response := r.json() and
return None. -/
def register (username password email : String) (org : Option String)
    (resp : Response) : Except PyExn RegisterNewUser × List Effect :=
  let effs : List Effect := [.post "/register" (registerBody username password email org)]
  let store (extra : List Effect) : Except PyExn RegisterNewUser × List Effect :=
    (.ok { username := username, password := password, email := email, org := org
           registration_response := resp.json }, effs ++ extra)
  let elseBranch : Except PyExn RegisterNewUser × List Effect :=
    match resp.json.keysContain "error" with
    | .error e => (.error e, effs)
    | .ok true =>
      match resp.json.getKey "error" with
      | .ok v => store [.print ("Unable to create account: " ++ pyStr v)]
      | .error e => (.error e, effs)
    | .ok false =>
      store [.print ("Unable to create account, see server response for details:\n"
        ++ pyStr resp.json)]
  if resp.ok then
    match resp.json.keysContain "ok" with
    | .error e => (.error e, effs)
    | .ok true => store [.print "Account Created"]
    | .ok false => elseBranch
  else elseBranch

end WattTime

namespace WattTime

/-! Concrete fixtures used by counterexamples and witnesses. -/

/-- A successful login response carrying token abc. -/
def loginOk : Response :=
  { status := 200, json := .obj [("token", .str "abc")], text := "" }

/-- A rejected login response (HTTP 401). -/
def login401 : Response :=
  { status := 401, json := .obj [("error", .str "bad credentials")], text := "Forbidden" }

/-- A successful endpoint response. -/
def resp200 : Response :=
  { status := 200, json := .obj [("ba", .str "CAISO_NORTH")], text := "" }

/-- A server-error endpoint response. -/
def resp500 : Response :=
  { status := 500, json := .null, text := "server error" }

/-- An unauthorized endpoint response. -/
def resp401 : Response :=
  { status := 401, json := .null, text := "Unauthorized" }

/-- A session holding token abc with stored expiry instant 100. -/
def authedSession : GridEmissionsInformation :=
  { username := "u", password := "p", host := "https://api2.watttime.org/v2"
    api_token := some (.str "abc")
    auth_header := some "Bearer abc"
    api_token_expire_dt := some 100 }

/-- Helper: when the stored expiry is at or before now, the expiry check of the
source performs no login and leaves the state unchanged. -/
theorem tokenCheck_noRefresh (s : GridEmissionsInformation) (now exp : Nat)
    (lr : Response) (hexp : s.api_token_expire_dt = some exp) (hnow : exp ≤ now) :
    tokenCheck s now lr = (.ok s, []) := by
  simp [tokenCheck, hexp, Nat.not_lt.mpr hnow]

/-- C1: the refresh comparison in the code is inverted.  With expiry instant
100: a call at now = 50 (strictly before expiry) issues a login before the
endpoint request, and a call at now = 120 (past expiry) issues no login and
dispatches with the stale bearer token — the exact opposite of the claim. -/
theorem c1_refresh_comparison_inverted :
    (determine_grid_region authedSession 50 loginOk resp200 37 (-122)).2 =
      [.login "u" "p",
       .get "/ba-from-loc" [("latitude", .num 37), ("longitude", .num (-122))] "Bearer abc"]
    ∧ (determine_grid_region authedSession 120 loginOk resp200 37 (-122)).2 =
      [.get "/ba-from-loc" [("latitude", .num 37), ("longitude", .num (-122))] "Bearer abc"]
    ∧ (real_time_emissions_index authedSession 120 loginOk resp200
        (some "CAISO_NORTH") none none).2 =
      [.get "/index" [("ba", .s "CAISO_NORTH")] "Bearer abc"] :=
  ⟨rfl, rfl, rfl⟩

/-- C2: when the construction-time login succeeds, the stored expiry instant is
the login time plus 29 minutes, so immediately after construction now is
strictly before the expiry instant. -/
theorem c2_token_expiry_margin (u p : String) (now : Nat) (resp : Response)
    (tok : JsonVal) (hok : resp.ok = true)
    (htok : resp.json.getKey "token" = .ok tok) :
    ∃ s1, (construct u p now resp).1 = .ok s1
      ∧ s1.api_token_expire_dt = some (now + 29)
      ∧ now < now + 29 := by
  refine ⟨{ initSession u p with
      api_token := some tok
      auth_header := some ("Bearer " ++ pyStr tok)
      api_token_expire_dt := some (now + 29) }, ?_, rfl, by omega⟩
  simp [construct, get_api_token, hok, htok]

/-- C2 witness at a concrete successful login. -/
theorem c2_token_expiry_margin_witness :
    Response.ok loginOk = true
    ∧ JsonVal.getKey loginOk.json "token" = .ok (.str "abc")
    ∧ ∃ s1, (construct "u" "p" 7 loginOk).1 = .ok s1
        ∧ s1.api_token_expire_dt = some (7 + 29) ∧ 7 < 7 + 29 :=
  ⟨rfl, rfl, c2_token_expiry_margin "u" "p" 7 loginOk (.str "abc") rfl rfl⟩

/-- C3 counterexample: construction with an HTTP 401 login response raises no
AuthenticationError at all — it returns normally, printing Login Failed, with
every token attribute still unassigned. -/
theorem c3_login_401_returns_normally :
    construct "u" "p" 0 login401 =
      (.ok (initSession "u" "p"), [.login "u" "p", .print "Login Failed"]) :=
  rfl

/-- C3 amended: on any non-2xx login response, construction completes without
raising any exception; it prints Login Failed and installs no token state
(api_token, auth_header and api_token_expire_dt all remain unassigned), so the
session holds no partial token state. -/
theorem c3_login_failure_silent (u p : String) (now : Nat) (resp : Response)
    (hfail : resp.ok = false) :
    construct u p now resp =
      (.ok (initSession u p), [.login u p, .print "Login Failed"])
    ∧ (initSession u p).api_token = none
    ∧ (initSession u p).auth_header = none
    ∧ (initSession u p).api_token_expire_dt = none := by
  refine ⟨?_, rfl, rfl, rfl⟩
  simp [construct, get_api_token, hfail, initSession]

/-- C3 witness at the concrete 401 login response. -/
theorem c3_login_failure_silent_witness :
    Response.ok login401 = false
    ∧ construct "v" "w" 3 login401 =
        (.ok (initSession "v" "w"), [.login "v" "w", .print "Login Failed"]) :=
  ⟨rfl, (c3_login_failure_silent "v" "w" 3 login401 rfl).1⟩

end WattTime

namespace WattTime

/-- C4 counterexample: supplying both a region and a coordinate pair to
real_time_emissions_index raises nothing — the single network request is
dispatched carrying ba, latitude and longitude together. -/
theorem c4_both_region_and_coords_dispatched :
    real_time_emissions_index authedSession 120 loginOk resp200
        (some "CAISO_NORTH") (some (37, -122)) none =
      (.ok (.json (.obj [("ba", .str "CAISO_NORTH")]), authedSession),
       [.get "/index"
          [("ba", .s "CAISO_NORTH"), ("latitude", .num 37), ("longitude", .num (-122))]
          "Bearer abc"]) :=
  rfl

/-- C4 amended: real_time_emissions_index performs no mutual-exclusivity
check: with both a (truthy) region and a coordinate pair supplied, no
ValidationError is raised and the request is dispatched carrying the ba,
latitude and longitude parameters together. -/
theorem c4_no_mutual_exclusion_check (s : GridEmissionsInformation)
    (now exp : Nat) (hdr : String) (lr resp : Response) (ba : String)
    (la lo : Int) (style : Option String)
    (hexp : s.api_token_expire_dt = some exp) (hnow : exp ≤ now)
    (hhdr : s.auth_header = some hdr) (hba : ba ≠ "") :
    (∃ rv, (real_time_emissions_index s now lr resp (some ba) (some (la, lo)) style).1
      = .ok (rv, s))
    ∧ ((real_time_emissions_index s now lr resp (some ba) (some (la, lo)) style).2.filter
        Effect.isNetwork) =
      [.get "/index"
        ([("ba", PVal.s ba), ("latitude", PVal.num la), ("longitude", PVal.num lo)]
          ++ optStrParam "style" style) hdr] := by
  have hchk := tokenCheck_noRefresh s now exp lr hexp hnow
  by_cases hok : resp.ok = true
  · refine ⟨⟨.json resp.json, ?_⟩, ?_⟩ <;>
      simp [real_time_emissions_index, hchk, jsonGet, hhdr, hok, optStrParam,
        latLongParams, hba, Effect.isNetwork]
  · rw [Bool.not_eq_true] at hok
    refine ⟨⟨.text resp.text, ?_⟩, ?_⟩ <;>
      simp [real_time_emissions_index, hchk, jsonGet, hhdr, hok, optStrParam,
        latLongParams, hba, Effect.isNetwork]

/-- C4 witness at a concrete call supplying both region and coordinates. -/
theorem c4_no_mutual_exclusion_check_witness :
    authedSession.api_token_expire_dt = some 100 ∧ 100 ≤ 120
    ∧ authedSession.auth_header = some "Bearer abc" ∧ "CAISO_NORTH" ≠ ""
    ∧ ((real_time_emissions_index authedSession 120 loginOk resp200
        (some "CAISO_NORTH") (some (37, -122)) none).2.filter Effect.isNetwork) =
      [.get "/index"
        ([("ba", PVal.s "CAISO_NORTH"), ("latitude", PVal.num 37),
          ("longitude", PVal.num (-122))] ++ optStrParam "style" none) "Bearer abc"] :=
  ⟨rfl, by omega, rfl, by decide,
    (c4_no_mutual_exclusion_check authedSession 120 100 "Bearer abc" loginOk resp200
      "CAISO_NORTH" 37 (-122) none rfl (by omega) rfl (by decide)).2⟩

/-- C5 counterexample: a one-element start_and_end_time tuple makes
grid_emissions_data raise IndexError — not ValidationError — and no request of
any kind is dispatched. -/
theorem c5_start_without_end_index_error :
    grid_emissions_data authedSession 120 loginOk resp200 (some "CAISO_NORTH")
        none none (some ["2022-01-01"]) none =
      (.error .indexError, []) :=
  rfl

/-- C5 amended: supplying a start time without an end time (a one-element
start_and_end_time tuple) makes grid_emissions_data raise IndexError, not
ValidationError, before the data request is dispatched (no request at all is
issued when the token check does not trigger a login). -/
theorem c5_start_without_end_raises_index_error (s : GridEmissionsInformation)
    (now exp : Nat) (lr resp : Response) (ba : Option String)
    (ll : Option (Int × Int)) (style mv : Option String) (ts : List String)
    (hexp : s.api_token_expire_dt = some exp) (hnow : exp ≤ now)
    (hlen : ts.length = 1) :
    grid_emissions_data s now lr resp ba ll style (some ts) mv =
      (.error .indexError, []) := by
  obtain ⟨a, rfl⟩ := List.length_eq_one.mp hlen
  have hchk := tokenCheck_noRefresh s now exp lr hexp hnow
  simp [grid_emissions_data, hchk, startEndParams]

/-- C5 witness at the concrete one-element tuple. -/
theorem c5_start_without_end_raises_index_error_witness :
    authedSession.api_token_expire_dt = some 100 ∧ 100 ≤ 120
    ∧ (["2022-01-01"] : List String).length = 1
    ∧ grid_emissions_data authedSession 120 loginOk resp200 (some "CAISO_NORTH")
        none none (some ["2022-01-01"]) none = (.error .indexError, []) :=
  ⟨rfl, by omega, rfl,
    c5_start_without_end_raises_index_error authedSession 120 100 loginOk resp200
      (some "CAISO_NORTH") none none none ["2022-01-01"] rfl (by omega) rfl⟩

/-- C6 counterexample: a non-2xx endpoint response raises no ApiError —
determine_grid_region prints the status code and returns the raw response
text. -/
theorem c6_non_2xx_returns_text :
    determine_grid_region authedSession 120 loginOk resp500 37 (-122) =
      (.ok (.text "server error", authedSession),
       [.get "/ba-from-loc" [("latitude", .num 37), ("longitude", .num (-122))] "Bearer abc",
        .print "Request failed with status code 500"]) :=
  rfl

/-- C6 amended: on a 2xx response the endpoint call returns the decoded JSON
body unchanged; on a non-2xx response it raises nothing — it prints the status
code and returns the raw response text instead of an ApiError. -/
theorem c6_endpoint_result_contract (s : GridEmissionsInformation)
    (now exp : Nat) (hdr : String) (lr resp : Response) (la lo : Int)
    (hexp : s.api_token_expire_dt = some exp) (hnow : exp ≤ now)
    (hhdr : s.auth_header = some hdr) :
    (resp.ok = true →
      determine_grid_region s now lr resp la lo =
        (.ok (.json resp.json, s),
         [.get "/ba-from-loc" [("latitude", PVal.num la), ("longitude", PVal.num lo)] hdr]))
    ∧ (resp.ok = false →
      determine_grid_region s now lr resp la lo =
        (.ok (.text resp.text, s),
         [.get "/ba-from-loc" [("latitude", PVal.num la), ("longitude", PVal.num lo)] hdr,
          .print ("Request failed with status code " ++ toString resp.status)])) := by
  have hchk := tokenCheck_noRefresh s now exp lr hexp hnow
  constructor
  · intro hok
    simp [determine_grid_region, hchk, jsonGet, hhdr, hok]
  · intro hok
    simp [determine_grid_region, hchk, jsonGet, hhdr, hok]

/-- C6 witness covering both branches at concrete responses. -/
theorem c6_endpoint_result_contract_witness :
    authedSession.api_token_expire_dt = some 100 ∧ 100 ≤ 120
    ∧ authedSession.auth_header = some "Bearer abc"
    ∧ Response.ok resp200 = true ∧ Response.ok resp500 = false
    ∧ determine_grid_region authedSession 120 loginOk resp200 1 2 =
        (.ok (.json resp200.json, authedSession),
         [.get "/ba-from-loc" [("latitude", PVal.num 1), ("longitude", PVal.num 2)] "Bearer abc"])
    ∧ determine_grid_region authedSession 120 loginOk resp500 1 2 =
        (.ok (.text resp500.text, authedSession),
         [.get "/ba-from-loc" [("latitude", PVal.num 1), ("longitude", PVal.num 2)] "Bearer abc",
          .print ("Request failed with status code " ++ toString resp500.status)]) :=
  ⟨rfl, by omega, rfl, rfl, rfl,
    (c6_endpoint_result_contract authedSession 120 100 "Bearer abc" loginOk resp200
      1 2 rfl (by omega) rfl).1 rfl,
    (c6_endpoint_result_contract authedSession 120 100 "Bearer abc" loginOk resp500
      1 2 rfl (by omega) rfl).2 rfl⟩

/-- C7 counterexample: a 401 endpoint response triggers no re-login and no
retry — the trace holds exactly one request, no AuthenticationError is raised,
and the raw text is returned. -/
theorem c7_endpoint_401_no_relogin :
    determine_grid_region authedSession 120 loginOk resp401 37 (-122) =
      (.ok (.text "Unauthorized", authedSession),
       [.get "/ba-from-loc" [("latitude", .num 37), ("longitude", .num (-122))] "Bearer abc",
        .print "Request failed with status code 401"]) :=
  rfl

/-- C7 amended: on an HTTP 401 endpoint response the session performs no
forced re-login and no retry: the only network request in the trace is the
single endpoint GET, and the call returns the raw response text instead of
raising an AuthenticationError. -/
theorem c7_endpoint_401_handling (s : GridEmissionsInformation)
    (now exp : Nat) (hdr : String) (lr resp : Response) (la lo : Int)
    (hexp : s.api_token_expire_dt = some exp) (hnow : exp ≤ now)
    (hhdr : s.auth_header = some hdr) (hstatus : resp.status = 401) :
    (determine_grid_region s now lr resp la lo).1 = .ok (.text resp.text, s)
    ∧ ((determine_grid_region s now lr resp la lo).2.filter Effect.isNetwork) =
      [.get "/ba-from-loc" [("latitude", PVal.num la), ("longitude", PVal.num lo)] hdr] := by
  have hchk := tokenCheck_noRefresh s now exp lr hexp hnow
  have hok : resp.ok = false := by simp [Response.ok, hstatus]
  constructor <;>
    simp [determine_grid_region, hchk, jsonGet, hhdr, hok, Effect.isNetwork]

/-- C7 witness at the concrete 401 endpoint response. -/
theorem c7_endpoint_401_handling_witness :
    authedSession.api_token_expire_dt = some 100 ∧ 100 ≤ 120
    ∧ authedSession.auth_header = some "Bearer abc" ∧ resp401.status = 401
    ∧ (determine_grid_region authedSession 120 loginOk resp401 37 (-122)).1 =
        .ok (.text resp401.text, authedSession)
    ∧ ((determine_grid_region authedSession 120 loginOk resp401 37 (-122)).2.filter
        Effect.isNetwork) =
      [.get "/ba-from-loc" [("latitude", PVal.num 37), ("longitude", PVal.num (-122))]
        "Bearer abc"] :=
  ⟨rfl, by omega, rfl, rfl,
    (c7_endpoint_401_handling authedSession 120 100 "Bearer abc" loginOk resp401
      37 (-122) rfl (by omega) rfl rfl).1,
    (c7_endpoint_401_handling authedSession 120 100 "Bearer abc" loginOk resp401
      37 (-122) rfl (by omega) rfl rfl).2⟩

end WattTime

namespace WattTime

/-- C8: when the registration server answers with a client-error body carrying
an error field, register raises nothing, prints and stores the exact
server-supplied message inside the stored response body, and the trace holds
exactly one network request. -/
theorem c8_register_error_reported (u p em : String) (org : Option String)
    (resp : Response) (fields : List (String × JsonVal)) (msg : String)
    (hfail : resp.ok = false) (hjson : resp.json = .obj fields)
    (herr : fields.lookup "error" = some (.str msg)) :
    register u p em org resp =
      (.ok { username := u, password := p, email := em, org := org
             registration_response := resp.json },
       [.post "/register" (registerBody u p em org),
        .print ("Unable to create account: " ++ msg)])
    ∧ ((register u p em org resp).2.filter Effect.isNetwork) =
      [.post "/register" (registerBody u p em org)] := by
  have h1 : register u p em org resp =
      (.ok { username := u, password := p, email := em, org := org
             registration_response := resp.json },
       [.post "/register" (registerBody u p em org),
        .print ("Unable to create account: " ++ msg)]) := by
    simp [register, hfail, hjson, JsonVal.keysContain, JsonVal.getKey, herr, pyStr]
  refine ⟨h1, ?_⟩
  rw [h1]
  simp [Effect.isNetwork]

/-- C8 witness: the username-taken scenario of the specification. -/
theorem c8_register_error_reported_witness :
    Response.ok { status := 400, json := .obj [("error", .str "username taken")],
                  text := "" } = false
    ∧ register "u" "p" "e@x.org" none
        { status := 400, json := .obj [("error", .str "username taken")], text := "" } =
      (.ok { username := "u", password := "p", email := "e@x.org", org := none
             registration_response := .obj [("error", .str "username taken")] },
       [.post "/register" (registerBody "u" "p" "e@x.org" none),
        .print ("Unable to create account: " ++ "username taken")]) :=
  ⟨rfl,
    (c8_register_error_reported "u" "p" "e@x.org" none
      { status := 400, json := .obj [("error", .str "username taken")], text := "" }
      [("error", .str "username taken")] "username taken" rfl rfl rfl).1⟩

/-- C9: when the construction-time login fails, the constructor completes
normally with none of the token attributes assigned, and every endpoint method
then fails by raising AttributeError on _api_token_expire_dt before issuing
any request. -/
theorem c9_failed_login_leaves_session_unusable (u p : String) (now : Nat)
    (resp : Response) (hfail : resp.ok = false) :
    (construct u p now resp).1 = .ok (initSession u p)
    ∧ (initSession u p).api_token = none
    ∧ (initSession u p).auth_header = none
    ∧ (initSession u p).api_token_expire_dt = none
    ∧ (∀ n2 lr r la lo, determine_grid_region (initSession u p) n2 lr r la lo =
        (.error (.attributeError "_api_token_expire_dt"), []))
    ∧ (∀ n2 lr r ar, list_grid_regions (initSession u p) n2 lr r ar =
        (.error (.attributeError "_api_token_expire_dt"), []))
    ∧ (∀ n2 lr r ba ll st, real_time_emissions_index (initSession u p) n2 lr r ba ll st =
        (.error (.attributeError "_api_token_expire_dt"), []))
    ∧ (∀ n2 lr r ba ll st se mv, grid_emissions_data (initSession u p) n2 lr r ba ll st se mv =
        (.error (.attributeError "_api_token_expire_dt"), []))
    ∧ (∀ n2 lr r ba fn ef cc mv io,
        historical_emissions (initSession u p) n2 lr r ba fn ef cc mv io =
        (.error (.attributeError "_api_token_expire_dt"), []))
    ∧ (∀ n2 lr r ba st et ex, emissions_forcast (initSession u p) n2 lr r ba st et ex =
        (.error (.attributeError "_api_token_expire_dt"), []))
    ∧ (∀ n2 lr r, get_region_map_geometry (initSession u p) n2 lr r =
        (.error (.attributeError "_api_token_expire_dt"), [])) := by
  refine ⟨?_, rfl, rfl, rfl,
    fun _ _ _ _ _ => rfl, fun _ _ _ _ => rfl, fun _ _ _ _ _ _ => rfl,
    fun _ _ _ _ _ _ _ _ => rfl, fun _ _ _ _ _ _ _ _ _ => rfl,
    fun _ _ _ _ _ _ _ => rfl, fun _ _ _ => rfl⟩
  simp [construct, get_api_token, hfail]

/-- C9 witness at the concrete 401 login response. -/
theorem c9_failed_login_leaves_session_unusable_witness :
    Response.ok login401 = false
    ∧ (construct "u" "p" 0 login401).1 = .ok (initSession "u" "p")
    ∧ determine_grid_region (initSession "u" "p") 5 loginOk resp200 37 (-122) =
        (.error (.attributeError "_api_token_expire_dt"), [])
    ∧ get_region_map_geometry (initSession "u" "p") 5 loginOk resp200 =
        (.error (.attributeError "_api_token_expire_dt"), []) :=
  ⟨rfl,
    (c9_failed_login_leaves_session_unusable "u" "p" 0 login401 rfl).1,
    (c9_failed_login_leaves_session_unusable "u" "p" 0 login401 rfl).2.2.2.2.1
      5 loginOk resp200 37 (-122),
    ((c9_failed_login_leaves_session_unusable "u" "p" 0 login401 rfl).2.2.2.2.2.2.2.2.2.2)
      5 loginOk resp200⟩

/-- C10: historical_emissions always returns None without raising; whenever
the zip save succeeds the raw response body is written to
output/<filename>.zip with no check of the HTTP status; and whenever any step
of saving, extraction or concatenation fails, the failure is only reported by
printing Unable to save file. -/
theorem c10_historical_emissions_contract (s : GridEmissionsInformation)
    (now exp : Nat) (hdr : String) (lr resp : Response) (ba fn : String)
    (ef cc : Bool) (mv : String) (io : IOOutcome)
    (hexp : s.api_token_expire_dt = some exp) (hnow : exp ≤ now)
    (hhdr : s.auth_header = some hdr) :
    (historical_emissions s now lr resp ba fn ef cc mv io).1 = .ok (.pynone, s)
    ∧ (io.saveOk = true →
        Effect.writeFile ("output/" ++ cleanFilename fn ++ ".zip") resp.text
          ∈ (historical_emissions s now lr resp ba fn ef cc mv io).2)
    ∧ ((io.saveOk = false ∨ (ef = true ∧ io.extractOk = false)
        ∨ (ef = true ∧ cc = true ∧ io.concatOk = false)) →
        Effect.print "Unable to save file."
          ∈ (historical_emissions s now lr resp ba fn ef cc mv io).2) := by
  have hchk := tokenCheck_noRefresh s now exp lr hexp hnow
  obtain ⟨so, eo, co⟩ := io
  cases so <;> cases ef <;> cases cc <;> cases eo <;> cases co <;>
    simp [historical_emissions, hchk, hhdr]

/-- C10 witness: a failing archive response whose body is still saved, and a
failing extraction that is only printed. -/
theorem c10_historical_emissions_contract_witness :
    authedSession.api_token_expire_dt = some 100 ∧ 100 ≤ 120
    ∧ authedSession.auth_header = some "Bearer abc"
    ∧ (historical_emissions authedSession 120 loginOk resp500 "CAISO_NORTH"
        "historical" true true "all" ⟨true, false, true⟩).1 = .ok (.pynone, authedSession)
    ∧ Effect.writeFile ("output/" ++ cleanFilename "historical" ++ ".zip") resp500.text
        ∈ (historical_emissions authedSession 120 loginOk resp500 "CAISO_NORTH"
            "historical" true true "all" ⟨true, false, true⟩).2
    ∧ Effect.print "Unable to save file."
        ∈ (historical_emissions authedSession 120 loginOk resp500 "CAISO_NORTH"
            "historical" true true "all" ⟨true, false, true⟩).2 :=
  ⟨rfl, by omega, rfl,
    (c10_historical_emissions_contract authedSession 120 100 "Bearer abc" loginOk
      resp500 "CAISO_NORTH" "historical" true true "all" ⟨true, false, true⟩
      rfl (by omega) rfl).1,
    (c10_historical_emissions_contract authedSession 120 100 "Bearer abc" loginOk
      resp500 "CAISO_NORTH" "historical" true true "all" ⟨true, false, true⟩
      rfl (by omega) rfl).2.1 rfl,
    (c10_historical_emissions_contract authedSession 120 100 "Bearer abc" loginOk
      resp500 "CAISO_NORTH" "historical" true true "all" ⟨true, false, true⟩
      rfl (by omega) rfl).2.2 (Or.inr (Or.inl ⟨rfl, rfl⟩))⟩

end WattTime
